import Mathlib

/-!
# Verification of the 0DTE options microservice ingestion pipeline

Shallow embedding of the pipeline's pure data logic:

* `validate_options_data` — `src/0dte_options_pipeline/src/utils.py` (also
  duplicated verbatim in `src/options_pipeline/utils.py`): schema and
  null-safety validation of an options DataFrame.
* `selectExpiration` — the expiration-date selection logic inside
  `fetch_options_data` (`src/0dte_options_pipeline/src/utils.py` lines 63-85,
  duplicated in `src/yfinance_data/fetch_options_data.py`).
* `normalizeChain` — the per-side chain normalization inside
  `fetch_options_data` (lines 87-117).
* `fetch_options_data` — the whole pure data-flow of the 0DTE fetch,
  parameterized by the provider's responses (price, expirations, chains).
* `save_options_data` / `get_latest_options_data` /
  `get_latest_options_data_blob` — the persister's write and latest-snapshot
  read paths (`src/0dte_options_pipeline/src/db_operations.py`,
  `src/blob_storage_pipeline/db_operations.py`), over an explicit list-of-rows
  store with an explicit connection (committed/pending) model.
* `fetch_options_rows_v3` — the all-expirations fetch variant
  (`src/option‑fetcher/utils.py`) with its `fillna(0)` null coercion.
* `is_collection_time` — the collection-time gate; its definition is not
  present under the sources (only its import and call site are), so it is
  modelled from the spec.

DataFrames are modelled as a list of column names plus rows given as
association lists from column name to an optional cell value (`none` = null).
Dates and timestamps are modelled as `Nat` (calendar/clock ordinals), numeric
cells as `Int`.
-/

/-- A cell value of a DataFrame: a number, a string, or a date/timestamp. -/
inductive Val where
  | num (n : Int)
  | str (s : String)
  | date (d : Nat)
deriving DecidableEq, Repr

/-- One DataFrame row: an association list from column name to cell content,
`none` meaning a null (NaN/None) cell. -/
abbrev Row : Type := List (String × Option Val)

/-- A pandas DataFrame: its column labels and its rows. -/
structure Table where
  cols : List String
  rows : List Row
deriving DecidableEq

/-- `df.empty`: a DataFrame is empty when it has no rows or no columns. -/
def Table.isEmpty (t : Table) : Bool :=
  t.rows.isEmpty || t.cols.isEmpty

/-- Read one cell of a row: `none` when the key is absent or the cell is null. -/
def getCell (r : Row) (c : String) : Option Val :=
  (List.lookup c r).join

/-- `df[cs]`: column selection, keeping only the named columns. -/
def Table.sliceCols (t : Table) (cs : List String) : Table :=
  ⟨cs, t.rows.map (fun r => cs.map (fun c => (c, getCell r c)))⟩

/-- `df[c] = v`: append a column holding the constant `v` in every row. -/
def Table.addCol (t : Table) (c : String) (v : Option Val) : Table :=
  ⟨t.cols ++ [c], t.rows.map (fun r => r ++ [(c, v)])⟩

/-- The column renaming of `fetch_options_data`
(`src/0dte_options_pipeline/src/utils.py` lines 123-126):
`type → option_type`, `openInterest → open_interest`. -/
def renameMap (c : String) : String :=
  if c = "type" then "option_type"
  else if c = "openInterest" then "open_interest"
  else c

/-- `df.rename(columns=...)`: apply the renaming to the column labels and to
every row's keys. -/
def Table.renameCols (t : Table) : Table :=
  ⟨t.cols.map renameMap, t.rows.map (fun r => r.map (fun p => (renameMap p.1, p.2)))⟩

/-- The required columns of `validate_options_data`
(`src/0dte_options_pipeline/src/utils.py` line 22). -/
def requiredColumns : List String :=
  ["strike", "openInterest", "expiration_date", "type", "stock_price", "timestamp"]

/-- The critical (null-checked) columns of `validate_options_data` (line 30). -/
def criticalColumns : List String :=
  ["strike", "openInterest", "type"]

/-- `df[critical_columns].isnull().any().any()`: some row has a null in a
critical column. -/
def hasNullCritical (t : Table) : Bool :=
  t.rows.any (fun r => criticalColumns.any (fun c => (getCell r c).isNone))

/-- `validate_options_data` (`src/0dte_options_pipeline/src/utils.py`
lines 20-35): all required columns must be present in the schema, and no row
may hold a null in a critical column. -/
def validate_options_data (t : Table) : Bool :=
  if !(requiredColumns.all (fun c => t.cols.contains c)) then false
  else if hasNullCritical t then false
  else true

/-- The spec's canonical required fields correspond to these source column
names: `open_interest` is the source column `openInterest` and `option_type`
is the source column `type` (the validator runs on raw provider column
names). -/
theorem validate_checks_source_names :
    requiredColumns =
      ["strike", "openInterest", "expiration_date", "type", "stock_price", "timestamp"] := rfl

/-- Expiration-date selection (`fetch_options_data`,
`src/0dte_options_pipeline/src/utils.py` lines 63-85; identical logic in
`fetch_options_data_v2`, `src/yfinance_data/fetch_options_data.py` lines
66-88).  Dates are `Nat` ordinals; `none` models the `return None` paths
(`if not ticker.options` and `if not future_expiries`).  Python's
`min(future_expiries, key=...)` over distinct dates is `List.min?`. -/
def selectExpiration (options : List Nat) (today : Nat) : Option Nat :=
  if options.isEmpty then none
  else if today ∈ options then some today
  else
    let future := options.filter (fun d => today < d)
    match future.min? with
    | none => none
    | some m => some m

/-- `if df.empty or not all(col in df.columns for col in [strike, openInterest])`:
a chain side is unusable when empty or missing a mandatory column. -/
def sideUnusable (t : Table) : Bool :=
  t.isEmpty || !(["strike", "openInterest"].all (fun c => t.cols.contains c))

/-- One side of `fetch_options_data`'s chain processing
(`src/0dte_options_pipeline/src/utils.py` lines 95-110): slice
`[strike, openInterest]`, tag `expiration_date` and `type`; skipped (`none`)
when the side is empty or lacks a mandatory column. -/
def processSide (t : Table) (expDate : Nat) (side : String) : Option Table :=
  if sideUnusable t then none
  else some (((t.sliceCols ["strike", "openInterest"]).addCol "expiration_date"
      (some (Val.date expDate))).addCol "type" (some (Val.str side)))

/-- Chain normalization of `fetch_options_data`
(`src/0dte_options_pipeline/src/utils.py` lines 87-117): the early
both-sides-empty check, per-side processing, and `pd.concat` of the
non-skipped sides (calls first), returning `none` when no side produced data. -/
def normalizeChain (calls puts : Table) (expDate : Nat) : Option Table :=
  if calls.isEmpty && puts.isEmpty then none
  else
    match processSide calls expDate "call", processSide puts expDate "put" with
    | none, none => none
    | some c, none => some c
    | none, some p => some p
    | some c, some p => some ⟨c.cols, c.rows ++ p.rows⟩

/-- C1: for a non-empty list of available expirations, selection returns
`today` when `today` is available; otherwise the minimum of the dates strictly
after `today` when one exists; otherwise it fails (`none`). -/
theorem selectExpiration_spec (options : List Nat) (today : Nat)
    (hne : options ≠ []) :
    (today ∈ options → selectExpiration options today = some today) ∧
    (today ∉ options →
      ((∃ d ∈ options, today < d) →
        ∃ m, selectExpiration options today = some m ∧ m ∈ options ∧
          today < m ∧ ∀ d ∈ options, today < d → m ≤ d) ∧
      ((∀ d ∈ options, d ≤ today) → selectExpiration options today = none)) := by
  refine ⟨fun hmem => ?_, fun hnot => ⟨fun ⟨d, hd, hdgt⟩ => ?_, fun hall => ?_⟩⟩
  · unfold selectExpiration
    rw [if_neg (by simpa using hne), if_pos hmem]
  · unfold selectExpiration
    rw [if_neg (by simpa using hne), if_neg hnot]
    have hfut : (options.filter (fun d => today < d)) ≠ [] := by
      intro hnil
      have : d ∈ options.filter (fun d => today < d) := by
        rw [List.mem_filter]
        exact ⟨hd, by simpa using hdgt⟩
      rw [hnil] at this
      exact absurd this (List.not_mem_nil d)
    obtain ⟨m, hm⟩ := Option.ne_none_iff_exists'.mp
      (fun h => hfut (List.min?_eq_none_iff.mp h))
    rw [List.min?_eq_some_iff'] at hm
    obtain ⟨hmmem, hmle⟩ := hm
    rw [List.mem_filter] at hmmem
    refine ⟨m, ?_, hmmem.1, by simpa using hmmem.2, fun e he hegt => ?_⟩
    · have : (options.filter (fun d => today < d)).min? = some m := by
        rw [List.min?_eq_some_iff']
        refine ⟨by rw [List.mem_filter]; exact ⟨hmmem.1, by simpa using hmmem.2⟩, hmle⟩
      simp [this]
    · exact hmle e (by rw [List.mem_filter]; exact ⟨he, by simpa using hegt⟩)
  · unfold selectExpiration
    rw [if_neg (by simpa using hne), if_neg hnot]
    have : options.filter (fun d => today < d) = [] := by
      rw [List.filter_eq_nil_iff]
      intro d hd
      simpa using Nat.not_lt.mpr (hall d hd)
    simp [this]

/-- Witness for C1 at concrete inputs: with available expirations
`[10, 20, 30]`, selection at `today = 10` returns `10`; at `today = 15` it
returns `20` (the earliest strictly-future date); at `today = 35` it fails. -/
theorem selectExpiration_spec_witness :
    selectExpiration [10, 20, 30] 10 = some 10 ∧
    (∃ m, selectExpiration [10, 20, 30] 15 = some m ∧ m ∈ [10, 20, 30] ∧
      15 < m ∧ ∀ d ∈ [10, 20, 30], 15 < d → m ≤ d) ∧
    selectExpiration [10, 20, 30] 35 = none := by
  refine ⟨(selectExpiration_spec [10, 20, 30] 10 (by decide)).1 (by decide),
    ((selectExpiration_spec [10, 20, 30] 15 (by decide)).2 (by decide)).1
      ⟨20, by decide, by decide⟩,
    ((selectExpiration_spec [10, 20, 30] 35 (by decide)).2 (by decide)).2
      (by decide)⟩

/-- C5: a chain side that is empty or missing a mandatory column (strike or
open interest) contributes no rows while a usable other side's rows are still
produced (with its tags), and normalization yields `none` exactly when both
sides are unusable. -/
theorem normalizeChain_spec (calls puts : Table) (expDate : Nat) :
    (normalizeChain calls puts expDate = none ↔
      (sideUnusable calls = true ∧ sideUnusable puts = true)) ∧
    (sideUnusable calls = true → sideUnusable puts = false →
      normalizeChain calls puts expDate =
        some (((puts.sliceCols ["strike", "openInterest"]).addCol
          "expiration_date" (some (Val.date expDate))).addCol "type"
          (some (Val.str "put")))) ∧
    (sideUnusable calls = false → sideUnusable puts = true →
      normalizeChain calls puts expDate =
        some (((calls.sliceCols ["strike", "openInterest"]).addCol
          "expiration_date" (some (Val.date expDate))).addCol "type"
          (some (Val.str "call")))) := by
  have hcall : ∀ t : Table, t.isEmpty = true → sideUnusable t = true := by
    intro t h
    unfold sideUnusable
    simp [h]
  refine ⟨?_, fun hc hp => ?_, fun hc hp => ?_⟩
  · unfold normalizeChain processSide
    by_cases hboth : calls.isEmpty = true ∧ puts.isEmpty = true
    · rw [if_pos (by simp [hboth.1, hboth.2])]
      simp [hcall calls hboth.1, hcall puts hboth.2]
    · rw [if_neg (by simpa [Bool.and_eq_true] using hboth)]
      by_cases huc : sideUnusable calls = true <;>
        by_cases hup : sideUnusable puts = true <;>
          simp [huc, hup]
  · unfold normalizeChain processSide
    have hpe : puts.isEmpty = false := by
      by_contra h
      rw [Bool.not_eq_false] at h
      rw [hcall puts h] at hp
      exact absurd hp (by simp)
    rw [if_neg (by simp [hpe])]
    simp [hc, hp]
  · unfold normalizeChain processSide
    have hce : calls.isEmpty = false := by
      by_contra h
      rw [Bool.not_eq_false] at h
      rw [hcall calls h] at hc
      exact absurd hc (by simp)
    rw [if_neg (by simp [hce])]
    simp [hc, hp]

/-- Witness for C5 at concrete inputs: with an empty calls side and a usable
puts side holding one row, normalization produces exactly the tagged puts
rows; with both sides empty it yields `none`. -/
theorem normalizeChain_spec_witness :
    (normalizeChain ⟨["strike", "openInterest"], []⟩
      ⟨["strike", "openInterest"],
        [[("strike", some (Val.num 5)), ("openInterest", some (Val.num 7))]]⟩ 3 =
      some ((((⟨["strike", "openInterest"],
        [[("strike", some (Val.num 5)), ("openInterest", some (Val.num 7))]]⟩ :
        Table).sliceCols ["strike", "openInterest"]).addCol "expiration_date"
          (some (Val.date 3))).addCol "type" (some (Val.str "put")))) ∧
    normalizeChain ⟨["strike", "openInterest"], []⟩
      ⟨["strike", "openInterest"], []⟩ 3 = none := by
  constructor
  · exact (normalizeChain_spec _ _ 3).2.1 (by decide) (by decide)
  · exact ((normalizeChain_spec _ _ 3).1).mpr ⟨by decide, by decide⟩

/-- The full pure data-flow of the 0DTE `fetch_options_data`
(`src/0dte_options_pipeline/src/utils.py` lines 37-146), parameterized by the
provider's responses: `currentPrice` is the latest close (`none` models an
empty/invalid history), `options` the available expiration dates, `chain` maps
an expiration date to its (calls, puts) tables.  After normalization the code
adds the `ticker` column, renames `type → option_type` and
`openInterest → open_interest`, adds `timestamp`, converts `expiration_date`
in place (a value conversion, schema-neutral here), adds `stock_price`, and
returns the table only if `validate_options_data` accepts it. -/
def fetch_options_data (currentPrice : Option Int) (options : List Nat)
    (today : Nat) (chain : Nat → Table × Table) (tickerSym : String)
    (now : Nat) : Option Table :=
  match currentPrice with
  | none => none
  | some price =>
    if options.isEmpty then none
    else
      match selectExpiration options today with
      | none => none
      | some expDate =>
        match normalizeChain (chain expDate).1 (chain expDate).2 expDate with
        | none => none
        | some data =>
          let data := data.addCol "ticker" (some (Val.str tickerSym))
          let data := data.renameCols
          let data := data.addCol "timestamp" (some (Val.date now))
          let data := data.addCol "stock_price" (some (Val.num price))
          if validate_options_data data then some data else none

/-- The columns a normalized chain always carries (slice plus the two tags). -/
theorem normalizeChain_cols (calls puts : Table) (expDate : Nat) (t : Table)
    (h : normalizeChain calls puts expDate = some t) :
    t.cols = ["strike", "openInterest", "expiration_date", "type"] := by
  unfold normalizeChain processSide at h
  by_cases hboth : (calls.isEmpty && puts.isEmpty) = true
  · rw [if_pos hboth] at h
    exact absurd h (by simp)
  · rw [if_neg hboth] at h
    by_cases huc : sideUnusable calls = true <;>
      by_cases hup : sideUnusable puts = true <;>
        simp [huc, hup] at h <;>
          rw [← h] <;> rfl

/-- C3: the 0DTE pipeline's `fetch_options_data` returns `None` for every
provider response: the columns are renamed to `open_interest` / `option_type`
before validation, but `validate_options_data` requires `openInterest` and
`type`, so validation always fails and the non-`None` return is unreachable. -/
theorem fetch_options_data_always_none (currentPrice : Option Int)
    (options : List Nat) (today : Nat) (chain : Nat → Table × Table)
    (tickerSym : String) (now : Nat) :
    fetch_options_data currentPrice options today chain tickerSym now = none := by
  unfold fetch_options_data
  match currentPrice with
  | none => rfl
  | some price =>
    simp only
    by_cases hopt : options.isEmpty = true
    · rw [if_pos hopt]
    · rw [if_neg hopt]
      match hsel : selectExpiration options today with
      | none => rfl
      | some expDate =>
        simp only
        match hnorm : normalizeChain (chain expDate).1 (chain expDate).2 expDate with
        | none => rfl
        | some data =>
          simp only
          have hcols : ((((data.addCol "ticker"
              (some (Val.str tickerSym))).renameCols).addCol "timestamp"
              (some (Val.date now))).addCol "stock_price"
              (some (Val.num price))).cols =
              ["strike", "open_interest", "expiration_date", "option_type",
                "ticker", "timestamp", "stock_price"] := by
            show ((((data.addCol "ticker" (some (Val.str tickerSym))).cols.map
              renameMap) ++ ["timestamp"]) ++ ["stock_price"]) = _
            show ((((data.cols ++ ["ticker"]).map renameMap) ++ ["timestamp"])
              ++ ["stock_price"]) = _
            rw [normalizeChain_cols _ _ _ _ hnorm]
            rfl
          have hval : validate_options_data ((((data.addCol "ticker"
              (some (Val.str tickerSym))).renameCols).addCol "timestamp"
              (some (Val.date now))).addCol "stock_price"
              (some (Val.num price))) = false := by
            unfold validate_options_data
            rw [hcols]
            rfl
          simp [hval]

/-- C2: the validator returns false whenever a required column is absent from
the schema, and, when all required columns are present, returns false whenever
some row holds a null in one of the critical columns
(strike / open interest / option type). -/
theorem validate_options_data_rejects (t : Table) :
    ((∃ c ∈ requiredColumns, ¬ c ∈ t.cols) → validate_options_data t = false) ∧
    ((∀ c ∈ requiredColumns, c ∈ t.cols) →
      (∃ r ∈ t.rows, ∃ c ∈ criticalColumns, getCell r c = none) →
      validate_options_data t = false) := by
  constructor
  · rintro ⟨c, hc, habs⟩
    unfold validate_options_data
    have : requiredColumns.all (fun c => t.cols.contains c) = false := by
      rw [Bool.eq_false_iff]
      intro h
      rw [List.all_eq_true] at h
      have := h c hc
      simp at this
      exact habs this
    simp [this]
    intro h
    exact absurd (h c hc) habs
  · rintro hall ⟨r, hr, c, hc, hnull⟩
    unfold validate_options_data
    have hnc : hasNullCritical t = true := by
      unfold hasNullCritical
      simp only [List.any_eq_true]
      exact ⟨r, hr, c, hc, by simp [hnull]⟩
    simp [hnc]

/-- Witness for C2 at concrete inputs: a table missing the `timestamp` column
is rejected, and a table with all required columns but a null strike is
rejected. -/
theorem validate_options_data_rejects_witness :
    validate_options_data ⟨["strike", "openInterest", "expiration_date", "type",
      "stock_price"], []⟩ = false ∧
    validate_options_data ⟨requiredColumns,
      [[("strike", none), ("openInterest", some (Val.num 5)),
        ("expiration_date", some (Val.date 3)), ("type", some (Val.str "call")),
        ("stock_price", some (Val.num 100)), ("timestamp", some (Val.date 7))]]⟩
      = false := by
  constructor
  · exact (validate_options_data_rejects _).1 (by decide)
  · exact (validate_options_data_rejects _).2 (by decide) (by decide)

/-- C8 counterexample: a zero-row table that declares all six required columns
passes validation (`validate_options_data` returns `true`): the null check over
zero rows is vacuous, so the claim "an empty record set fails validation
regardless of declared columns" is false on the code. -/
theorem validate_empty_with_cols_counterexample :
    (Table.mk requiredColumns []).rows = [] ∧
    validate_options_data ⟨requiredColumns, []⟩ = true := by
  exact ⟨rfl, by decide⟩

/-- C8 amended: a zero-row table fails validation exactly when some required
column is absent from its declared schema; with all required columns declared,
a zero-row table validates true. -/
theorem validate_empty_iff_missing_column (cs : List String) :
    validate_options_data ⟨cs, []⟩ = false ↔ ∃ c ∈ requiredColumns, ¬ c ∈ cs := by
  unfold validate_options_data hasNullCritical
  simp only [List.any_nil, List.all_eq_true]
  constructor
  · intro h
    by_contra hno
    push_neg at hno
    have : ∀ c ∈ requiredColumns, cs.contains c = true := by
      intro c hc
      simp only [List.contains_iff_exists_mem_beq]
      exact ⟨c, hno c hc, by simp⟩
    simp [this] at h
    obtain ⟨x, hx, hx2⟩ := h
    exact hx2 (hno x hx)
  · rintro ⟨c, hc, habs⟩
    have : ¬ ∀ c ∈ requiredColumns, cs.contains c = true := by
      intro h
      have := h c hc
      simp at this
      exact habs this
    simp [this]
    exact ⟨c, hc, habs⟩

/-- One row of the `options_data` store, mirroring the insert tuple of
`save_options_data` (`src/0dte_options_pipeline/src/db_operations.py`
lines 97-105).  Cells read from the DataFrame are kept as optional values;
the per-batch `timestamp = datetime.now()` is a `Nat`. -/
structure DBRow where
  ticker : String
  strike : Option Val
  open_interest : Option Val
  expiration_date : Option Val
  option_type : Option Val
  stock_price : Option Val
  timestamp : Nat
deriving DecidableEq, Repr

/-- A database connection: committed store contents plus the uncommitted
(pending) work of the open transaction. -/
structure Conn where
  committed : List DBRow
  pending : List DBRow
deriving DecidableEq

/-- Stage one inserted row in the open transaction. -/
def Conn.insert (c : Conn) (r : DBRow) : Conn :=
  { c with pending := c.pending ++ [r] }

/-- `conn.commit()`: make the pending rows durable. -/
def Conn.commit (c : Conn) : Conn :=
  ⟨c.committed ++ c.pending, []⟩

/-- `conn.rollback()`: discard the pending rows. -/
def Conn.rollback (c : Conn) : Conn :=
  { c with pending := [] }

/-- `conn.close()` without a commit discards uncommitted work (psycopg2
closes without committing). -/
def Conn.close (c : Conn) : Conn :=
  c.rollback

/-- Build the insert tuples of `save_options_data` (lines 95-106): one record
per DataFrame row, stamped with the ticker and the batch timestamp. -/
def rowsToRecords (tickerSym : String) (now : Nat) (data : Table) : List DBRow :=
  data.rows.map (fun r =>
    ⟨tickerSym, getCell r "strike", getCell r "open_interest",
      getCell r "expiration_date", getCell r "option_type",
      getCell r "stock_price", now⟩)

/-- Outcome of a write: the resulting committed store, tagged by whether the
call returned normally or re-raised after rollback. -/
inductive SaveResult where
  | ok (store : List DBRow)
  | error (store : List DBRow)
deriving DecidableEq

/-- `execute_values(cur, insert_query, records)` staging the batch in the open
transaction; `failAt = some k` models a driver error after `k` rows were
staged (the boolean is `false` on failure). -/
def execute_values (c : Conn) (records : List DBRow) (failAt : Option Nat) :
    Conn × Bool :=
  match failAt with
  | none => (records.foldl Conn.insert c, true)
  | some k => ((records.take k).foldl Conn.insert c, false)

/-- `save_options_data` (`src/0dte_options_pipeline/src/db_operations.py`
lines 75-128): return immediately on an empty batch; otherwise open a
connection on the current store, stage every record, and either commit once
after all inserts, or — on any error — roll back, re-raise (`error`), and
close the connection. -/
def save_options_data (store : List DBRow) (data : Table) (tickerSym : String)
    (now : Nat) (failAt : Option Nat) : SaveResult :=
  if data.rows.isEmpty then .ok store
  else
    let records := rowsToRecords tickerSym now data
    let conn : Conn := ⟨store, []⟩
    let res := execute_values conn records failAt
    if res.2 then
      .ok ((res.1.commit).close).committed
    else
      .error ((res.1.rollback).close).committed

/-- Rows stored for one ticker. -/
def countTicker (store : List DBRow) (tickerSym : String) : Nat :=
  (store.filter (fun r => r.ticker = tickerSym)).length

/-- Folding `Conn.insert` stages the records in order without touching the
committed store. -/
theorem execute_foldl (records : List DBRow) (c : Conn) :
    records.foldl Conn.insert c = ⟨c.committed, c.pending ++ records⟩ := by
  induction records generalizing c with
  | nil => simp
  | cons r rs ih =>
    rw [List.foldl_cons, ih]
    simp [Conn.insert]

/-- A failure-free save of a non-empty batch appends exactly the batch's
records to the store. -/
theorem save_options_data_ok (store : List DBRow) (data : Table)
    (tickerSym : String) (now : Nat) (h : data.rows.isEmpty = false) :
    save_options_data store data tickerSym now none =
      .ok (store ++ rowsToRecords tickerSym now data) := by
  unfold save_options_data execute_values
  rw [if_neg (by simp [h])]
  simp only [execute_foldl]
  rfl

/-- Every record built from a batch carries the ticker it was saved under. -/
theorem countTicker_records (tickerSym : String) (now : Nat) (data : Table) :
    countTicker (rowsToRecords tickerSym now data) tickerSym =
      data.rows.length := by
  unfold countTicker rowsToRecords
  rw [List.filter_map]
  simp [Function.comp_def]

/-- Counting rows for a ticker distributes over store concatenation. -/
theorem countTicker_append (a b : List DBRow) (tickerSym : String) :
    countTicker (a ++ b) tickerSym =
      countTicker a tickerSym + countTicker b tickerSym := by
  unfold countTicker
  rw [List.filter_append, List.length_append]

/-- C4: the write path is append-only with no deduplication: saving the same
non-empty batch twice into a store holding no rows for the ticker leaves the
store with exactly twice the batch's row count for that ticker, and each save
only appends — the previous store contents stay as an unchanged prefix. -/
theorem save_twice_doubles (store : List DBRow) (data : Table)
    (tickerSym : String) (now1 now2 : Nat)
    (h0 : countTicker store tickerSym = 0) (hne : data.rows.isEmpty = false) :
    ∃ s1 s2, save_options_data store data tickerSym now1 none = .ok s1 ∧
      save_options_data s1 data tickerSym now2 none = .ok s2 ∧
      countTicker s2 tickerSym = 2 * data.rows.length ∧
      store <+: s1 ∧ s1 <+: s2 := by
  refine ⟨store ++ rowsToRecords tickerSym now1 data,
    (store ++ rowsToRecords tickerSym now1 data) ++ rowsToRecords tickerSym now2 data,
    save_options_data_ok store data tickerSym now1 hne,
    save_options_data_ok _ data tickerSym now2 hne, ?_,
    List.prefix_append _ _, List.prefix_append _ _⟩
  rw [countTicker_append, countTicker_append, h0, countTicker_records,
    countTicker_records]
  omega

/-- Witness for C4 at a concrete input: saving a two-row batch twice into an
empty store yields four rows for the ticker, by appending only. -/
theorem save_twice_doubles_witness :
    countTicker [] "SPY" = 0 ∧
    (Table.mk ["strike"] [[("strike", some (Val.num 5))],
      [("strike", some (Val.num 6))]]).rows.isEmpty = false ∧
    ∃ s1 s2, save_options_data [] (Table.mk ["strike"]
        [[("strike", some (Val.num 5))], [("strike", some (Val.num 6))]])
        "SPY" 1 none = .ok s1 ∧
      save_options_data s1 (Table.mk ["strike"]
        [[("strike", some (Val.num 5))], [("strike", some (Val.num 6))]])
        "SPY" 2 none = .ok s2 ∧
      countTicker s2 "SPY" = 2 * (Table.mk ["strike"]
        [[("strike", some (Val.num 5))], [("strike", some (Val.num 6))]]).rows.length ∧
      [] <+: s1 ∧ s1 <+: s2 :=
  ⟨rfl, rfl, save_twice_doubles [] _ "SPY" 1 2 rfl rfl⟩

/-- C6: the batch write is atomic: without a driver error the whole batch is
committed once after all inserts; if an error occurs mid-batch (after any
number `k` of staged rows) the transaction is rolled back, no row of the batch
reaches the store, and the error is re-raised to the caller. -/
theorem save_options_data_atomic (store : List DBRow) (data : Table)
    (tickerSym : String) (now : Nat) :
    (data.rows.isEmpty = false →
      save_options_data store data tickerSym now none =
        .ok (store ++ rowsToRecords tickerSym now data)) ∧
    (∀ k, save_options_data store data tickerSym now (some k) = .ok store ∨
      save_options_data store data tickerSym now (some k) = .error store) ∧
    (∀ k, data.rows.isEmpty = false →
      save_options_data store data tickerSym now (some k) = .error store) := by
  refine ⟨fun h => save_options_data_ok store data tickerSym now h,
    fun k => ?_, fun k h => ?_⟩
  · by_cases h : data.rows.isEmpty = true
    · left
      unfold save_options_data
      rw [if_pos h]
    · right
      unfold save_options_data execute_values
      rw [if_neg h]
      simp only [execute_foldl]
      rfl
  · unfold save_options_data execute_values
    rw [if_neg (by simp [h])]
    simp only [execute_foldl]
    rfl

/-- Witness for C6 at a concrete input: a one-row batch is fully committed on
success, and a failure after staging one row of a two-row batch leaves the
store exactly as it was, with the error surfaced. -/
theorem save_options_data_atomic_witness :
    save_options_data [] (Table.mk ["strike"] [[("strike", some (Val.num 5))]])
      "SPY" 1 none =
      .ok (rowsToRecords "SPY" 1
        (Table.mk ["strike"] [[("strike", some (Val.num 5))]])) ∧
    save_options_data [⟨"SPY", none, none, none, none, none, 0⟩]
      (Table.mk ["strike"] [[("strike", some (Val.num 5))],
        [("strike", some (Val.num 6))]]) "SPY" 1 (some 1) =
      .error [⟨"SPY", none, none, none, none, none, 0⟩] := by
  constructor
  · exact (save_options_data_atomic [] _ "SPY" 1).1 rfl
  · exact (save_options_data_atomic _ _ "SPY" 1).2.2 1 rfl

/-- `SELECT MAX(timestamp) FROM options_data WHERE ticker = t`: the maximum
stored timestamp among a row subset (`none` on an empty subset, as SQL MAX
yields NULL). -/
def maxTimestamp (l : List DBRow) : Option Nat :=
  (l.map (fun r => r.timestamp)).max?

/-- `get_latest_options_data` of the blob-storage pipeline
(`src/blob_storage_pipeline/db_operations.py` lines 160-190):
`WHERE ticker = t AND timestamp = (SELECT MAX(timestamp) ... WHERE ticker = t)`
with no ORDER BY — rows come back in store order. -/
def get_latest_options_data_blob (store : List DBRow) (tickerSym : String) :
    List DBRow :=
  match maxTimestamp (store.filter (fun r => r.ticker == tickerSym)) with
  | none => []
  | some m => store.filter (fun r => r.ticker == tickerSym && r.timestamp == m)

/-- Insert one row into a list kept in non-increasing timestamp order. -/
def insertByTsDesc (r : DBRow) : List DBRow → List DBRow
  | [] => [r]
  | x :: xs =>
    if r.timestamp ≤ x.timestamp then x :: insertByTsDesc r xs
    else r :: x :: xs

/-- `ORDER BY timestamp DESC`: sort rows by timestamp, newest first. -/
def sortByTsDesc : List DBRow → List DBRow
  | [] => []
  | x :: xs => insertByTsDesc x (sortByTsDesc xs)

/-- `get_latest_options_data` of the 0DTE pipeline
(`src/0dte_options_pipeline/src/db_operations.py` lines 130-157):
`WHERE ticker = t ORDER BY timestamp DESC LIMIT limit` — no restriction to the
maximum timestamp. -/
def get_latest_options_data (store : List DBRow) (tickerSym : String)
    (limit : Nat) : List DBRow :=
  (sortByTsDesc (store.filter (fun r => r.ticker == tickerSym))).take limit

/-- Two store rows for ticker A at the same (maximal) timestamp, inserted with
the larger strike first. -/
def exRowBig : DBRow := ⟨"A", some (Val.num 10), none, none, none, none, 1⟩

/-- The second example row: smaller strike, same timestamp. -/
def exRowSmall : DBRow := ⟨"A", some (Val.num 5), none, none, none, none, 1⟩

/-- An older row for ticker A (timestamp 0, below the maximum). -/
def exRowOld : DBRow := ⟨"A", some (Val.num 7), none, none, none, none, 0⟩

/-- C7 counterexample: on the store `[exRowBig, exRowSmall]` (both at the
maximal timestamp, strikes 10 then 5) the blob-storage read path returns the
rows in store order `[10, 5]`, not ordered by strike ascending (`[5, 10]`);
and on the store `[exRowOld, exRowBig]` the 0DTE read path (limit 100) also
returns `exRowOld`, whose timestamp 0 is below the maximum 1 — so neither
variant returns "exactly the maximal-timestamp records ordered by strike
ascending". -/
theorem get_latest_counterexample :
    get_latest_options_data_blob [exRowBig, exRowSmall] "A" =
      [exRowBig, exRowSmall] ∧
    [exRowBig, exRowSmall] ≠ [exRowSmall, exRowBig] ∧
    exRowOld ∈ get_latest_options_data [exRowOld, exRowBig] "A" 100 ∧
    exRowOld.timestamp < exRowBig.timestamp := by
  refine ⟨by decide, by decide, ?_, by decide⟩
  show exRowOld ∈ (sortByTsDesc (List.filter _ [exRowOld, exRowBig])).take 100
  decide

/-- C7 amended: the blob-storage latest-snapshot read path returns exactly the
set of stored records for the ticker whose timestamp is maximal among that
ticker's records, in store order (a sublist of the store) — not re-ordered by
strike. -/
theorem get_latest_options_data_blob_spec (store : List DBRow)
    (tickerSym : String) :
    (∀ r, r ∈ get_latest_options_data_blob store tickerSym ↔
      (r ∈ store ∧ r.ticker = tickerSym ∧
        ∀ s ∈ store, s.ticker = tickerSym → s.timestamp ≤ r.timestamp)) ∧
    (get_latest_options_data_blob store tickerSym).Sublist store := by
  unfold get_latest_options_data_blob
  match hmax : maxTimestamp (store.filter (fun r => r.ticker == tickerSym)) with
  | none =>
    unfold maxTimestamp at hmax
    rw [List.max?_eq_none_iff, List.map_eq_nil_iff, List.filter_eq_nil_iff] at hmax
    refine ⟨fun r => ⟨fun h => absurd h (List.not_mem_nil r), ?_⟩,
      List.nil_sublist store⟩
    rintro ⟨hr, ht, -⟩
    exact absurd (by simpa using ht) (hmax r hr)
  | some m =>
    unfold maxTimestamp at hmax
    rw [List.max?_eq_some_iff'] at hmax
    obtain ⟨hmem, hmax'⟩ := hmax
    rw [List.mem_map] at hmem
    obtain ⟨w, hw, hwts⟩ := hmem
    rw [List.mem_filter] at hw
    refine ⟨fun r => ⟨fun h => ?_, fun ⟨hr, ht, hbig⟩ => ?_⟩,
      List.filter_sublist store⟩
    · rw [List.mem_filter] at h
      obtain ⟨hr, hcond⟩ := h
      simp only [Bool.and_eq_true, beq_iff_eq] at hcond
      refine ⟨hr, hcond.1, fun s hs hst => ?_⟩
      have : s.timestamp ∈ (store.filter
          (fun r => r.ticker == tickerSym)).map (fun r => r.timestamp) := by
        rw [List.mem_map]
        exact ⟨s, by rw [List.mem_filter]; exact ⟨hs, by simpa using hst⟩, rfl⟩
      rw [hcond.2]
      exact hmax' _ this
    · rw [List.mem_filter]
      refine ⟨hr, ?_⟩
      simp only [Bool.and_eq_true, beq_iff_eq]
      refine ⟨ht, ?_⟩
      have hle : r.timestamp ≤ m := by
        refine hmax' _ ?_
        rw [List.mem_map]
        exact ⟨r, by rw [List.mem_filter]; exact ⟨hr, by simpa using ht⟩, rfl⟩
      have hge : m ≤ r.timestamp := by
        rw [← hwts]
        exact hbig w hw.1 (by simpa using hw.2)
      omega

/-- Modelled from the spec: `is_collection_time` is imported from `src.utils`
by `src/0dte_options_pipeline/src/function_app.py` (line 7) and called at its
line 34, but its definition is missing from the sources (only the import, the
call site and a smoke test exist).  Spec §4.1 CollectionGate: returns false on
Saturday/Sunday; on a weekday returns true iff the absolute minute difference
between the local wall-clock time and the target time of day is at most the
tolerance.  `weekday` follows Python's `date.weekday()` (0 = Monday,
5 = Saturday, 6 = Sunday); times of day are minutes since midnight. -/
def is_collection_time (weekday nowMinutes targetMinutes tol : Nat) : Bool :=
  if weekday == 5 || weekday == 6 then false
  else max nowMinutes targetMinutes - min nowMinutes targetMinutes ≤ tol

/-- C9: the collection gate is false on every Saturday or Sunday instant
regardless of time of day, and on a weekday it is true exactly when the
absolute minute difference between the wall-clock time and the target time is
at most the tolerance. -/
theorem is_collection_time_spec (weekday nowMinutes targetMinutes tol : Nat) :
    (weekday = 5 ∨ weekday = 6 →
      is_collection_time weekday nowMinutes targetMinutes tol = false) ∧
    (weekday < 5 →
      (is_collection_time weekday nowMinutes targetMinutes tol = true ↔
        ((nowMinutes : Int) - (targetMinutes : Int)).natAbs ≤ tol)) := by
  constructor
  · rintro (h | h) <;> simp [is_collection_time, h]
  · intro h
    unfold is_collection_time
    rw [if_neg (by simp; omega)]
    simp only [decide_eq_true_eq]
    omega

/-- Witness for C9 at concrete inputs (target 11:30 = minute 690, tolerance
5): Saturday at the target minute is refused; Monday 11:34 is inside the
window; Monday 11:36 is outside. -/
theorem is_collection_time_spec_witness :
    is_collection_time 5 690 690 5 = false ∧
    is_collection_time 0 694 690 5 = true ∧
    is_collection_time 0 696 690 5 = false := by
  refine ⟨(is_collection_time_spec 5 690 690 5).1 (Or.inl rfl), ?_, ?_⟩
  · exact ((is_collection_time_spec 0 694 690 5).2 (by decide)).mpr (by decide)
  · have h := (is_collection_time_spec 0 696 690 5).2 (by decide)
    rw [Bool.eq_false_iff]
    intro hc
    exact absurd (h.mp hc) (by decide)

/-- One emitted record of the all-expirations fetch variant
(`src/option‑fetcher/utils.py` lines 66-80), with every numeric field already
coerced (`fillna(0)` + `astype`); floats are modelled as `Int`. -/
structure Doc where
  ticker : String
  expiration_date : Nat
  option_type : String
  strike : Int
  open_interest : Int
  volume : Int
  bid : Int
  ask : Int
  last_price : Int
  implied_volatility : Int
  stock_price : Int
  ts : Nat
  time_to_expiry_days : Int
deriving DecidableEq, Repr

/-- `fillna(0)` followed by `astype`: a null cell becomes `0`; a numeric cell
keeps its value.  (The provider's numeric columns only ever hold numbers or
nulls; other `Val` shapes are mapped to `0` to keep the function total.) -/
def fillnaNum (v : Option Val) : Int :=
  match v with
  | some (Val.num n) => n
  | _ => 0

/-- The source columns sliced by the all-expirations fetch
(`src/option‑fetcher/utils.py` line 49). -/
def fetchCols : List String :=
  ["strike", "openInterest", "volume", "bid", "ask", "lastPrice",
    "impliedVolatility"]

/-- `if df.empty or not set(cols).issubset(df.columns): continue` — a side is
processed only when non-empty and carrying every sliced column. -/
def sideUsableV3 (t : Table) : Bool :=
  !t.isEmpty && fetchCols.all (fun c => t.cols.contains c)

/-- Build the dict appended for one row (`src/option‑fetcher/utils.py`
lines 66-80): each numeric cell is read from the `fillna(0)`-cleaned slice. -/
def docOfRow (tickerSym : String) (expDt : Nat) (optType : String)
    (stockPrice : Int) (now : Nat) (tte : Int) (r : Row) : Doc :=
  ⟨tickerSym, expDt, optType,
    fillnaNum (getCell r "strike"),
    fillnaNum (getCell r "openInterest"),
    fillnaNum (getCell r "volume"),
    fillnaNum (getCell r "bid"),
    fillnaNum (getCell r "ask"),
    fillnaNum (getCell r "lastPrice"),
    fillnaNum (getCell r "impliedVolatility"),
    stockPrice, now, tte⟩

/-- One side of the all-expirations fetch (`src/option‑fetcher/utils.py`
lines 50-80): skip an unusable side, else emit one record per row in order. -/
def processSideV3 (t : Table) (tickerSym : String) (expDt : Nat)
    (optType : String) (stockPrice : Int) (now : Nat) (tte : Int) : List Doc :=
  if sideUsableV3 t then
    t.rows.map (docOfRow tickerSym expDt optType stockPrice now tte)
  else []

/-- C10: on a usable side, every source row is emitted (one record per row, in
order — no row is dropped or rejected), and a null in any of the numeric
source columns is coerced to `0` in the emitted record; in particular a row
with missing open interest comes out with `open_interest = 0`. -/
theorem processSideV3_fillna (t : Table) (tickerSym : String) (expDt : Nat)
    (optType : String) (stockPrice : Int) (now : Nat) (tte : Int)
    (h : sideUsableV3 t = true) :
    processSideV3 t tickerSym expDt optType stockPrice now tte =
      t.rows.map (docOfRow tickerSym expDt optType stockPrice now tte) ∧
    (processSideV3 t tickerSym expDt optType stockPrice now tte).length =
      t.rows.length ∧
    ∀ r ∈ t.rows,
      (getCell r "openInterest" = none →
        (docOfRow tickerSym expDt optType stockPrice now tte r).open_interest = 0) ∧
      (getCell r "volume" = none →
        (docOfRow tickerSym expDt optType stockPrice now tte r).volume = 0) ∧
      (getCell r "bid" = none →
        (docOfRow tickerSym expDt optType stockPrice now tte r).bid = 0) ∧
      (getCell r "ask" = none →
        (docOfRow tickerSym expDt optType stockPrice now tte r).ask = 0) ∧
      (getCell r "lastPrice" = none →
        (docOfRow tickerSym expDt optType stockPrice now tte r).last_price = 0) ∧
      (getCell r "impliedVolatility" = none →
        (docOfRow tickerSym expDt optType stockPrice now tte r).implied_volatility = 0) := by
  refine ⟨by simp [processSideV3, h], by simp [processSideV3, h], fun r hr => ?_⟩
  refine ⟨fun hn => ?_, fun hn => ?_, fun hn => ?_, fun hn => ?_, fun hn => ?_,
    fun hn => ?_⟩ <;> simp [docOfRow, hn, fillnaNum]

/-- Witness for C10 at a concrete input: a one-row side with a null
`openInterest` cell (all sliced columns present) emits exactly one record with
`open_interest = 0`. -/
theorem processSideV3_fillna_witness :
    (processSideV3 ⟨fetchCols, [[("strike", some (Val.num 5)),
      ("openInterest", none), ("volume", some (Val.num 3)),
      ("bid", some (Val.num 1)), ("ask", some (Val.num 2)),
      ("lastPrice", some (Val.num 1)), ("impliedVolatility", some (Val.num 0))]]⟩
      "SPY" 9 "call" 100 7 2).length = 1 ∧
    (docOfRow "SPY" 9 "call" 100 7 2 [("strike", some (Val.num 5)),
      ("openInterest", none), ("volume", some (Val.num 3)),
      ("bid", some (Val.num 1)), ("ask", some (Val.num 2)),
      ("lastPrice", some (Val.num 1)),
      ("impliedVolatility", some (Val.num 0))]).open_interest = 0 := by
  have h := processSideV3_fillna ⟨fetchCols, [[("strike", some (Val.num 5)),
    ("openInterest", none), ("volume", some (Val.num 3)),
    ("bid", some (Val.num 1)), ("ask", some (Val.num 2)),
    ("lastPrice", some (Val.num 1)), ("impliedVolatility", some (Val.num 0))]]⟩
    "SPY" 9 "call" 100 7 2 (by decide)
  exact ⟨h.2.1.trans (by decide), (h.2.2 _ (by decide)).1 (by decide)⟩

/-- Witness for the C8 amended claim at a concrete input: a zero-row table
declaring only `strike` fails validation because `openInterest` is absent. -/
theorem validate_empty_iff_missing_column_witness :
    validate_options_data ⟨["strike"], []⟩ = false :=
  (validate_empty_iff_missing_column ["strike"]).mpr
    ⟨"openInterest", by decide, by decide⟩

/-- Witness for the C7 amended claim at a concrete input: on the store
`[exRowOld, exRowBig]` the row with the maximal timestamp is returned by the
blob-storage read path. -/
theorem get_latest_options_data_blob_spec_witness :
    exRowBig ∈ get_latest_options_data_blob [exRowOld, exRowBig] "A" :=
  ((get_latest_options_data_blob_spec [exRowOld, exRowBig] "A").1 exRowBig).mpr
    ⟨by decide, by decide, by decide⟩
